import Mathlib

/-!
Verification of the projectile-motion simulator core
(`src/client/js/physics.js`, `src/client/js/canvas.js`,
`src/client/js/ui.js`) against its natural-language specification.

Modelling conventions:
* JavaScript numbers are idealised as exact numbers: real numbers (`ℝ`)
  where the code uses transcendental functions (`Math.sin`, `Math.cos`,
  `Math.sqrt`, `Math.PI`), and rational numbers (`ℚ`) for the purely
  arithmetical components (validation, scale mapper, animation clock),
  which keeps those components fully executable and decidable.
* The JavaScript literal `0.5` is written `(1/2)`, `1.1` is written
  `(11/10)`, and `9.81` is written `(981/100)`.
* A JavaScript "falsy" test on a nullable number (`!this.startTimestamp`,
  `x || 10`) holds exactly when the value is `null`/absent or `0`.
* Rendering calls, DOM access and callback plumbing have no behavioural
  content for the claims and are dropped; every field that the modelled
  functions read or write is carried in the state.
-/

/-! ### Kinematics (`physics.js`), over `ℝ` -/

/-- Converts degrees to radians (`degreesToRadians` in `physics.js`):
`radians = degrees × (π / 180)`. -/
noncomputable def degreesToRadians (degrees : ℝ) : ℝ :=
  degrees * (Real.pi / 180)

/-- Result of `calculatePositionAtTime`: a position `{x, y}` in meters. -/
structure Position where
  x : ℝ
  y : ℝ

/-- Position at time `t` (`calculatePositionAtTime` in `physics.js`):
`x = v0·cos(θ)·t`, `y = h0 + v0·sin(θ)·t - ½·g·t²`. -/
noncomputable def calculatePositionAtTime
    (time initialVelocity launchAngle initialHeight gravity : ℝ) : Position :=
  let angleRad := degreesToRadians launchAngle
  { x := initialVelocity * Real.cos angleRad * time
    y := initialHeight + initialVelocity * Real.sin angleRad * time -
         (1/2) * gravity * time * time }

/-- Result of `calculateVelocityAtTime`: components and magnitude. -/
structure Velocity where
  vx : ℝ
  vy : ℝ
  magnitude : ℝ

/-- Velocity at time `t` (`calculateVelocityAtTime` in `physics.js`):
`vx = v0·cos(θ)` (constant), `vy = v0·sin(θ) - g·t`,
`magnitude = √(vx² + vy²)`. -/
noncomputable def calculateVelocityAtTime
    (time initialVelocity launchAngle gravity : ℝ) : Velocity :=
  let angleRad := degreesToRadians launchAngle
  let vx := initialVelocity * Real.cos angleRad
  let vy := initialVelocity * Real.sin angleRad - gravity * time
  { vx := vx, vy := vy, magnitude := Real.sqrt (vx * vx + vy * vy) }

/-- Total flight time (`calculateFlightTime` in `physics.js`): positive
root of `-½g·t² + v0·sin(θ)·t + h0 = 0`; coefficients `a = -½g`,
`b = v0·sin(θ)`, `c = h0`; returns `0` on a negative discriminant, and
the result is clamped by `Math.max(0, ·)`. -/
noncomputable def calculateFlightTime
    (initialVelocity launchAngle initialHeight gravity : ℝ) : ℝ :=
  let angleRad := degreesToRadians launchAngle
  let sinAngle := Real.sin angleRad
  let a := -(1/2) * gravity
  let b := initialVelocity * sinAngle
  let c := initialHeight
  let discriminant := b * b - 4 * a * c
  if discriminant < 0 then 0
  else max 0 ((-b - Real.sqrt discriminant) / (2 * a))

/-- Final horizontal velocity (`calculateFinalVelocity` in `physics.js`):
`vx = v0·cos(θ)`, deliberately the horizontal component rather than the
impact speed (see the rationale comment in the source). -/
noncomputable def calculateFinalVelocity
    (initialVelocity launchAngle : ℝ) : ℝ :=
  initialVelocity * Real.cos (degreesToRadians launchAngle)

/-- A trajectory sample point `{x, y, t}` as produced by
`generateTrajectoryPoints`. -/
structure TrajPoint where
  x : ℝ
  y : ℝ
  t : ℝ

/-- Trajectory sampler (`generateTrajectoryPoints` in `physics.js`):
for `i = 0 .. numPoints`, `t = (i / numPoints) * flightTime`, position
evaluated at `t`, with `y` clamped by `Math.max(0, ·)`. -/
noncomputable def generateTrajectoryPoints
    (initialVelocity launchAngle initialHeight gravity : ℝ)
    (numPoints : ℕ) : List TrajPoint :=
  let flightTime :=
    calculateFlightTime initialVelocity launchAngle initialHeight gravity
  (List.range (numPoints + 1)).map fun i : ℕ =>
    let t := ((i : ℝ) / (numPoints : ℝ)) * flightTime
    let position :=
      calculatePositionAtTime t initialVelocity launchAngle initialHeight gravity
    { x := position.x, y := max 0 position.y, t := t }

/-! ### Parameter validation (`validateParameters` in `physics.js`), over `ℚ` -/

/-- Simulation parameters `{initialVelocity, launchAngle, initialHeight,
gravity}` as stored on the renderer and the UI controller. -/
structure Params where
  initialVelocity : ℚ
  launchAngle : ℚ
  initialHeight : ℚ
  gravity : ℚ
  deriving DecidableEq

/-- Error string pushed when `initialVelocity < 0 || initialVelocity > 200`. -/
def velocityErrorMsg : String :=
  "Initial velocity must be between 0 and 200 m/s"

/-- Error string pushed when `launchAngle < 0 || launchAngle > 90`. -/
def angleErrorMsg : String :=
  "Launch angle must be between 0° and 90°"

/-- Error string pushed when `initialHeight < 0`. -/
def heightErrorMsg : String :=
  "Initial height cannot be negative"

/-- Error string pushed when `gravity <= 0`. -/
def gravityErrorMsg : String :=
  "Gravity must be a positive value"

/-- Result of `validateParameters`: `{valid, errors}` with
`valid = (errors.length === 0)`. -/
structure ValidationResult where
  valid : Bool
  errors : List String
  deriving DecidableEq

/-- Parameter validation (`validateParameters` in `physics.js`): pushes
one error string per failing bound check, in source order, and reports
`valid` exactly when no error was pushed. -/
def validateParameters (p : Params) : ValidationResult :=
  let errors :=
    (if p.initialVelocity < 0 ∨ 200 < p.initialVelocity
      then [velocityErrorMsg] else []) ++
    (if p.launchAngle < 0 ∨ 90 < p.launchAngle
      then [angleErrorMsg] else []) ++
    (if p.initialHeight < 0 then [heightErrorMsg] else []) ++
    (if p.gravity ≤ 0 then [gravityErrorMsg] else [])
  { valid := errors.isEmpty, errors := errors }

/-! ### Scale mapper (`calculateOptimalScale` in `canvas.js`), over `ℚ` -/

/-- Scale mapper (`CanvasRenderer.calculateOptimalScale`): pads each
extent by 10% via `maxX * 1.1 || 10` (the JavaScript `|| 10` replaces a
falsy — i.e. zero — product by `10`), takes
`Math.min(scaleX, scaleY, 20)` and then `Math.max(scale, 2)`.
The drawable sizes are the `this.drawableWidth`/`this.drawableHeight`
fields read by the method; the returned value is the assigned
`this.scale`. -/
def calculateOptimalScale
    (maxX maxY drawableWidth drawableHeight : ℚ) : ℚ :=
  let paddedMaxX := if maxX * (11/10) = 0 then 10 else maxX * (11/10)
  let paddedMaxY := if maxY * (11/10) = 0 then 10 else maxY * (11/10)
  let scaleX := drawableWidth / paddedMaxX
  let scaleY := drawableHeight / paddedMaxY
  max (min (min scaleX scaleY) 20) 2

/-- Modelled from the spec sentence of claim C7 (not from the source):
degenerate extents "fall back to a default physical extent of 10 m
BEFORE padding", i.e. the effective padded extent of a degenerate axis
would be `10 * 1.1 = 11`. Used only to compare the claimed algorithm
with the implemented one. -/
def fitSpecClaim
    (rangeMeters maxHeightMeters drawableWidth drawableHeight : ℚ) : ℚ :=
  let extentX := if rangeMeters = 0 then 10 else rangeMeters
  let extentY := if maxHeightMeters = 0 then 10 else maxHeightMeters
  let paddedX := extentX * (11/10)
  let paddedY := extentY * (11/10)
  max (min (min (drawableWidth / paddedX) (drawableHeight / paddedY)) 20) 2

/-- The amended spec-level description of the scale mapper: pad each
extent by 10%, but a degenerate (zero) extent falls back to an effective
padded extent of `10` (fallback applied AFTER padding), then fit and
clamp to `[2, 20]`. -/
def fitSpecAmended
    (rangeMeters maxHeightMeters drawableWidth drawableHeight : ℚ) : ℚ :=
  let paddedX := if rangeMeters = 0 then 10 else rangeMeters * (11/10)
  let paddedY := if maxHeightMeters = 0 then 10 else maxHeightMeters * (11/10)
  max (min (min (drawableWidth / paddedX) (drawableHeight / paddedY)) 20) 2

/-! ### Animation controller (`canvas.js`), over `ℚ`

The time-relevant state of `CanvasRenderer` and the methods
`startSimulation`, `animate`, `pause`, `resume`. Timestamps (from
`requestAnimationFrame` and `performance.now()`, which share the same
monotonic millisecond clock) are modelled as exact rationals. Rendering
calls, the trajectory-point cache and the `onComplete`/`onUpdate`
callbacks do not influence the time state and are dropped; the
`flightTime` stored by `startSimulation` (the source computes it as
`calculateSimulationResults(this.params).flightTime`, which is
nonnegative because `calculateFlightTime` is clamped by `Math.max(0,·)`)
is passed as an argument. -/

/-- The animation-relevant fields of `CanvasRenderer`. `startTimestamp`
is nullable (`null` until the first processed frame); `pauseTimestamp`
and `flightTime` are undefined in JavaScript until first written but are
never read before that, so they are carried as plain rationals starting
at 0. -/
structure AnimState where
  isAnimating : Bool
  isPaused : Bool
  currentTime : ℚ
  startTimestamp : Option ℚ
  pauseTimestamp : ℚ
  flightTime : ℚ
  deriving DecidableEq

/-- The constructor state of `CanvasRenderer`: not animating, not
paused, `currentTime = 0`, `startTimestamp = null`. -/
def initState : AnimState :=
  { isAnimating := false, isPaused := false, currentTime := 0,
    startTimestamp := none, pauseTimestamp := 0, flightTime := 0 }

/-- JavaScript falsiness of the nullable `startTimestamp`:
`!this.startTimestamp` holds for `null` and for `0`. -/
def jsFalsy : Option ℚ → Bool
  | none => true
  | some x => decide (x = 0)

/-- `CanvasRenderer.startSimulation`: resets the animation flags and the
clock anchor, and stores the flight time of the current parameter
snapshot. -/
def startSimulation (flightTime : ℚ) (s : AnimState) : AnimState :=
  { s with isAnimating := true, isPaused := false, currentTime := 0,
           startTimestamp := none, flightTime := flightTime }

/-- `CanvasRenderer.animate(timestamp)`: ignores the tick when not
animating; when paused only re-schedules itself; otherwise anchors
`startTimestamp` on the first processed frame (the falsy test treats a
zero anchor as unset), recomputes
`currentTime = min((timestamp - startTimestamp)/1000, flightTime)` from
elapsed wall-clock time, and clears `isAnimating` when
`currentTime >= flightTime`. -/
def animate (timestamp : ℚ) (s : AnimState) : AnimState :=
  if s.isAnimating = false then s
  else if s.isPaused = true then s
  else
    let s1 := if jsFalsy s.startTimestamp = true
              then { s with startTimestamp := some timestamp } else s
    let elapsed := (timestamp - s1.startTimestamp.getD 0) / 1000
    let currentTime := min elapsed s1.flightTime
    if s1.flightTime ≤ currentTime then
      { s1 with currentTime := currentTime, isAnimating := false }
    else
      { s1 with currentTime := currentTime }

/-- `CanvasRenderer.pause`: unconditionally sets `isPaused` and records
`pauseTimestamp = performance.now()` — there is no guard against being
already paused. -/
def pause (now : ℚ) (s : AnimState) : AnimState :=
  { s with isPaused := true, pauseTimestamp := now }

/-- `CanvasRenderer.resume`: when paused, shifts the anchor forward by
the pause duration (`startTimestamp += now - pauseTimestamp`; a `null`
anchor is coerced to `0` by JavaScript arithmetic) and clears the pause
flag; otherwise does nothing. -/
def resume (now : ℚ) (s : AnimState) : AnimState :=
  if s.isPaused = true then
    { s with
      startTimestamp := some (s.startTimestamp.getD 0 + (now - s.pauseTimestamp)),
      isPaused := false }
  else s

/-- External events driving the controller: a frame callback tick, a
pause click, a resume click. -/
inductive Ev where
  | tick (timestamp : ℚ)
  | pauseAt (now : ℚ)
  | resumeAt (now : ℚ)

/-- One external event applied to the state. -/
def step (s : AnimState) : Ev → AnimState
  | Ev.tick timestamp => animate timestamp s
  | Ev.pauseAt now => pause now s
  | Ev.resumeAt now => resume now s

/-- A sequence of external events applied in order. -/
def runEvents (s : AnimState) (events : List Ev) : AnimState :=
  events.foldl step s

/-- The `currentTime` observed after each event of a run (the value the
source hands to its `onUpdate` callback on each processed frame). -/
def ctTrace (s : AnimState) : List Ev → List ℚ
  | [] => []
  | e :: es => (step s e).currentTime :: ctTrace (step s e) es

/-- Invariant of a pause-free run used for claim C1: anchored at the
first tick timestamp `h`, after a last processed tick at `u` the
current time is `min ((u - h)/1000) ft` and the run is still animating
exactly while that elapsed time is below `ft`. -/
def tickInv (h ft u : ℚ) (s : AnimState) : Prop :=
  s.startTimestamp = some h ∧ s.isPaused = false ∧ s.flightTime = ft ∧
  s.currentTime = min ((u - h) / 1000) ft ∧
  (s.isAnimating = true ↔ (u - h) / 1000 < ft)

/-- Relation between two post-resume states used for claim C2: equal in
every observable field, with anchors shifted by the respective pause
durations `d1` and `d2`. -/
def shiftRel (a d1 d2 : ℚ) (t1 t2 : AnimState) : Prop :=
  t1.isAnimating = t2.isAnimating ∧ t1.isPaused = false ∧ t2.isPaused = false ∧
  t1.currentTime = t2.currentTime ∧ t1.flightTime = t2.flightTime ∧
  t1.startTimestamp = some (a + d1) ∧ t2.startTimestamp = some (a + d2)

/-- Event list of a run with a single injected pause: a first tick at
`h`, further ticks at the timestamps in `pre`, a pause at `P`, ticks
while paused, a resume after a pause of duration `d`, and post-resume
ticks at offsets `qs` after the resume instant `P + d`. -/
def pausedRunEvents (h P d : ℚ) (pre pausedTicks qs : List ℚ) : List Ev :=
  Ev.tick h :: pre.map Ev.tick ++ Ev.pauseAt P :: pausedTicks.map Ev.tick ++
    Ev.resumeAt (P + d) :: qs.map (fun q => Ev.tick (P + d + q))

/-! ### Partial parameter updates (`setParams` in `canvas.js` and `ui.js`) -/

/-- A partial parameter object passed to `setParams`: each field may be
present or absent. -/
structure ParamsPatch where
  initialVelocity : Option ℚ
  launchAngle : Option ℚ
  initialHeight : Option ℚ
  gravity : Option ℚ
  deriving DecidableEq

/-- Object-spread merge `this.params = { ...this.params, ...params }` as
performed by `CanvasRenderer.setParams` (canvas.js): a field present in
the patch overrides the stored value, an absent field keeps it. -/
def rendererSetParams (stored : Params) (patch : ParamsPatch) : Params :=
  { initialVelocity := patch.initialVelocity.getD stored.initialVelocity,
    launchAngle := patch.launchAngle.getD stored.launchAngle,
    initialHeight := patch.initialHeight.getD stored.initialHeight,
    gravity := patch.gravity.getD stored.gravity }

/-- The same object-spread merge as performed by `UIController.setParams`
(ui.js); the subsequent `syncInputsFromParams` and `updatePreview` calls
only read the merged result for rendering and are not modelled. -/
def uiSetParams (stored : Params) (patch : ParamsPatch) : Params :=
  { initialVelocity := patch.initialVelocity.getD stored.initialVelocity,
    launchAngle := patch.launchAngle.getD stored.launchAngle,
    initialHeight := patch.initialHeight.getD stored.initialHeight,
    gravity := patch.gravity.getD stored.gravity }

/-! ### Theorems for claims C5, C6, C7 -/

/-- Claim C5 (corrected), counterexample to the claim as stated: the
claim says `valid = true` requires `initialVelocity ∈ [0,100]`, but the
code accepts `initialVelocity = 150` (its bound is `[0,200]`). -/
theorem validateParameters_bounds_counterexample :
    (validateParameters ⟨150, 45, 0, 981/100⟩).valid = true ∧
    ¬ ((150 : ℚ) ≤ 100) := by
  constructor
  · norm_num [validateParameters]
  · norm_num

/-- Claim C5 (amended): `validateParameters` accepts — with an empty
error list — exactly the parameters with `initialVelocity ∈ [0,200]`
(the implemented bound, not the claimed `[0,100]`),
`launchAngle ∈ [0,90]`, `initialHeight ≥ 0` and `gravity > 0`; each
out-of-range parameter is rejected with its own violation entry rather
than silently clamped. -/
theorem validateParameters_amended (p : Params) :
    (((validateParameters p).valid = true ∧ (validateParameters p).errors = []) ↔
      (0 ≤ p.initialVelocity ∧ p.initialVelocity ≤ 200 ∧
       0 ≤ p.launchAngle ∧ p.launchAngle ≤ 90 ∧
       0 ≤ p.initialHeight ∧ 0 < p.gravity)) ∧
    (p.initialVelocity < 0 ∨ 200 < p.initialVelocity →
      (validateParameters p).valid = false ∧
      velocityErrorMsg ∈ (validateParameters p).errors) ∧
    (p.launchAngle < 0 ∨ 90 < p.launchAngle →
      (validateParameters p).valid = false ∧
      angleErrorMsg ∈ (validateParameters p).errors) ∧
    (p.initialHeight < 0 →
      (validateParameters p).valid = false ∧
      heightErrorMsg ∈ (validateParameters p).errors) ∧
    (p.gravity ≤ 0 →
      (validateParameters p).valid = false ∧
      gravityErrorMsg ∈ (validateParameters p).errors) := by
  refine ⟨?_, fun h => by simp [validateParameters, h],
    fun h => by simp [validateParameters, h],
    fun h => by simp [validateParameters, h],
    fun h => by simp [validateParameters, h]⟩
  by_cases hv : p.initialVelocity < 0 ∨ 200 < p.initialVelocity <;>
    by_cases ha : p.launchAngle < 0 ∨ 90 < p.launchAngle <;>
    by_cases hh : p.initialHeight < 0 <;>
    by_cases hg : p.gravity ≤ 0 <;>
    simp only [validateParameters, hv, ha, hh, hg, if_true, if_false,
      List.nil_append, List.append_nil, List.cons_append, List.isEmpty_nil,
      List.isEmpty_cons, List.cons_ne_nil, Bool.false_eq_true, false_and,
      and_false, false_iff, true_iff, true_and, and_true, iff_true,
      eq_self_iff_true, ite_true, ite_false]
  all_goals push_neg at hv ha hh hg
  all_goals try exact ⟨hv.1, hv.2, ha.1, ha.2, hh, hg⟩
  all_goals rintro ⟨k1, k2, k3, k4, k5, k6⟩
  all_goals first
    | (rcases hv with h | h <;> linarith)
    | (rcases ha with h | h <;> linarith)
    | linarith

/-- Witness for `validateParameters_amended` at the concrete parameters
`⟨-5, 100, -1, 0⟩`, where all four bounds are violated. -/
theorem validateParameters_amended_witness :
    (((-5 : ℚ) < 0 ∨ 200 < (-5 : ℚ)) ∧
      (validateParameters ⟨-5, 100, -1, 0⟩).valid = false ∧
      velocityErrorMsg ∈ (validateParameters ⟨-5, 100, -1, 0⟩).errors) ∧
    (((100 : ℚ) < 0 ∨ 90 < (100 : ℚ)) ∧
      angleErrorMsg ∈ (validateParameters ⟨-5, 100, -1, 0⟩).errors) ∧
    (((-1 : ℚ) < 0) ∧
      heightErrorMsg ∈ (validateParameters ⟨-5, 100, -1, 0⟩).errors) ∧
    (((0 : ℚ) ≤ 0) ∧
      gravityErrorMsg ∈ (validateParameters ⟨-5, 100, -1, 0⟩).errors) := by
  refine ⟨⟨by norm_num, (validateParameters_amended ⟨-5, 100, -1, 0⟩).2.1 (by norm_num)⟩,
    ⟨by norm_num, ?_⟩, ⟨by norm_num, ?_⟩, ⟨le_refl 0, ?_⟩⟩
  · exact ((validateParameters_amended ⟨-5, 100, -1, 0⟩).2.2.1 (by norm_num)).2
  · exact ((validateParameters_amended ⟨-5, 100, -1, 0⟩).2.2.2.1 (by norm_num)).2
  · exact ((validateParameters_amended ⟨-5, 100, -1, 0⟩).2.2.2.2 (by norm_num)).2

/-- Claim C6 (confirmed): for every input extent pair and every drawable
size — including degenerate `(0, 0)` extents and even negative inputs —
the computed `pixelsPerMeter` scale lies within `[2, 20]`. -/
theorem scale_clamp_invariant (maxX maxY drawableWidth drawableHeight : ℚ) :
    2 ≤ calculateOptimalScale maxX maxY drawableWidth drawableHeight ∧
    calculateOptimalScale maxX maxY drawableWidth drawableHeight ≤ 20 := by
  unfold calculateOptimalScale
  refine ⟨le_max_right _ _, max_le (le_trans (min_le_right _ _) (by norm_num)) (by norm_num)⟩

/-- Claim C7 (corrected), counterexample to the claim as stated: at the
degenerate extents `(0, 0)` with a `100 × 100` drawable area, the code
uses an effective padded extent of `10` (scale `100/10 = 10`), not the
claimed `10 · 1.1 = 11` (which would give `100/11`). -/
theorem scale_fallback_counterexample :
    calculateOptimalScale 0 0 100 100 = 10 ∧
    fitSpecClaim 0 0 100 100 = 100/11 ∧
    calculateOptimalScale 0 0 100 100 ≠ fitSpecClaim 0 0 100 100 := by
  refine ⟨?_, ?_, ?_⟩ <;>
    norm_num [calculateOptimalScale, fitSpecClaim, min_def, max_def]

/-- Claim C7 (amended): the scale mapper pads each extent by 10%,
computes independent X and Y scales from the drawable sizes, takes the
minimum together with the max-zoom bound 20, and clamps below at 2; a
degenerate (zero) extent falls back to an effective PADDED extent of
`10` — the fallback is applied after padding, not before. -/
theorem scale_fallback_amended (maxX maxY drawableWidth drawableHeight : ℚ) :
    calculateOptimalScale maxX maxY drawableWidth drawableHeight =
      fitSpecAmended maxX maxY drawableWidth drawableHeight := by
  unfold calculateOptimalScale fitSpecAmended
  have hX : (maxX * (11/10) = 0) ↔ (maxX = 0) := by
    constructor
    · intro h
      rcases mul_eq_zero.mp h with h' | h'
      · exact h'
      · norm_num at h'
    · intro h; rw [h]; ring
  have hY : (maxY * (11/10) = 0) ↔ (maxY = 0) := by
    constructor
    · intro h
      rcases mul_eq_zero.mp h with h' | h'
      · exact h'
      · norm_num at h'
    · intro h; rw [h]; ring
  by_cases hx : maxX = 0 <;> by_cases hy : maxY = 0 <;>
    simp [hx, hy, hX, hY]

/-! ### Helper lemmas about the animation controller -/

lemma animate_completed (u : ℚ) (s : AnimState) (han : s.isAnimating = false) :
    animate u s = s := by
  simp [animate, han]

lemma animate_paused (u : ℚ) (s : AnimState) (hps : s.isPaused = true) :
    animate u s = s := by
  by_cases han : s.isAnimating = false <;> simp [animate, han, hps]

lemma animate_running (u : ℚ) (s : AnimState) (a : ℚ)
    (han : s.isAnimating = true) (hps : s.isPaused = false)
    (hst : s.startTimestamp = some a) (ha : a ≠ 0) :
    animate u s =
      if s.flightTime ≤ min ((u - a) / 1000) s.flightTime then
        { s with currentTime := min ((u - a) / 1000) s.flightTime,
                 isAnimating := false }
      else
        { s with currentTime := min ((u - a) / 1000) s.flightTime } := by
  simp [animate, han, hps, hst, jsFalsy, ha]

lemma animate_tickInv (h ft u v : ℚ) (s : AnimState) (hh : h ≠ 0)
    (hu : u ≤ v) (hinv : tickInv h ft u s) : tickInv h ft v (animate v s) := by
  obtain ⟨hst, hps, hfl, hct, hia⟩ := hinv
  have hmono : (u - h) / 1000 ≤ (v - h) / 1000 := by
    apply (div_le_div_iff_of_pos_right (by norm_num : (0:ℚ) < 1000)).mpr
    linarith
  by_cases han : s.isAnimating = true
  · rw [animate_running v s h han hps hst hh]
    by_cases hdone : s.flightTime ≤ min ((v - h) / 1000) s.flightTime
    · rw [if_pos hdone]
      rw [hfl] at hdone
      have hle : ft ≤ (v - h) / 1000 := ((le_min_iff.mp hdone).1)
      refine ⟨hst, hps, hfl, by rw [hfl], ?_⟩
      simp only [Bool.false_eq_true, false_iff, not_lt]
      exact hle
    · rw [if_neg hdone]
      rw [hfl] at hdone
      have hlt : (v - h) / 1000 < ft := by
        push_neg at hdone
        rcases min_lt_iff.mp hdone with h' | h'
        · exact h'
        · linarith
      exact ⟨hst, hps, hfl, by rw [hfl], by simp [han, hlt]⟩
  · have han' : s.isAnimating = false := by
      revert han; cases s.isAnimating <;> simp
    have hben : ft ≤ (u - h) / 1000 := by
      by_contra hc
      push_neg at hc
      exact han (hia.mpr hc)
    rw [animate_completed v s han']
    refine ⟨hst, hps, hfl, ?_, ?_⟩
    · rw [hct, min_eq_right hben, min_eq_right (le_trans hben hmono)]
    · simp only [han', Bool.false_eq_true, false_iff, not_lt]
      exact le_trans hben hmono

lemma runTicks_inv (h ft : ℚ) (hh : h ≠ 0) :
    ∀ (rest : List ℚ) (u : ℚ) (s : AnimState),
      List.Chain (· < ·) u rest → tickInv h ft u s →
      tickInv h ft ((u :: rest).getLast (List.cons_ne_nil u rest))
        (runEvents s (rest.map Ev.tick)) := by
  intro rest
  induction rest with
  | nil => intro u s _ hinv; simpa [runEvents] using hinv
  | cons v rest ih =>
    intro u s hchain hinv
    rw [List.chain_cons] at hchain
    have h1 : tickInv h ft v (animate v s) :=
      animate_tickInv h ft u v s hh (le_of_lt hchain.1) hinv
    have h2 := ih v (animate v s) hchain.2 h1
    rw [List.getLast_cons (List.cons_ne_nil v rest)]
    simpa [runEvents, List.foldl, step] using h2

lemma resume_currentTime (now : ℚ) (s : AnimState) :
    (resume now s).currentTime = s.currentTime := by
  unfold resume; split_ifs <;> rfl

lemma resume_not_paused (now : ℚ) (s : AnimState) (hps : s.isPaused = false) :
    resume now s = s := by
  simp [resume, hps]

lemma first_tick_anchor (ft h : ℚ) (s : AnimState) :
    (animate h (startSimulation ft s)).startTimestamp = some h ∧
    (animate h (startSimulation ft s)).isPaused = false := by
  simp only [animate, startSimulation, jsFalsy]
  norm_num
  split_ifs <;> simp

lemma animate_anchor (u a : ℚ) (s : AnimState) (ha : a ≠ 0)
    (hst : s.startTimestamp = some a) (hps : s.isPaused = false) :
    (animate u s).startTimestamp = some a ∧ (animate u s).isPaused = false := by
  by_cases han : s.isAnimating = true
  · rw [animate_running u s a han hps hst ha]
    split_ifs <;> exact ⟨hst, hps⟩
  · have han' : s.isAnimating = false := by
      revert han; cases s.isAnimating <;> simp
    rw [animate_completed u s han']
    exact ⟨hst, hps⟩

lemma anchor_stable (a : ℚ) (ha : a ≠ 0) :
    ∀ (ts : List ℚ) (s : AnimState),
      s.startTimestamp = some a → s.isPaused = false →
      (runEvents s (ts.map Ev.tick)).startTimestamp = some a ∧
      (runEvents s (ts.map Ev.tick)).isPaused = false := by
  intro ts
  induction ts with
  | nil => intro s h1 h2; exact ⟨h1, h2⟩
  | cons u ts ih =>
    intro s h1 h2
    have hstep := animate_anchor u a s ha h1 h2
    have : runEvents s ((u :: ts).map Ev.tick) =
        runEvents (animate u s) (ts.map Ev.tick) := by
      simp [runEvents, List.foldl, step]
    rw [this]
    exact ih (animate u s) hstep.1 hstep.2

lemma paused_run_id : ∀ (ts : List ℚ) (s : AnimState), s.isPaused = true →
    runEvents s (ts.map Ev.tick) = s := by
  intro ts
  induction ts with
  | nil => intro s _; rfl
  | cons u ts ih =>
    intro s hps
    have : runEvents s ((u :: ts).map Ev.tick) =
        runEvents (animate u s) (ts.map Ev.tick) := by
      simp [runEvents, List.foldl, step]
    rw [this, animate_paused u s hps]
    exact ih s hps

lemma shifted_step (a d1 d2 u : ℚ) (t1 t2 : AnimState)
    (h1 : a + d1 ≠ 0) (h2 : a + d2 ≠ 0) (hR : shiftRel a d1 d2 t1 t2) :
    shiftRel a d1 d2 (animate (u + d1) t1) (animate (u + d2) t2) := by
  obtain ⟨hA, hp1, hp2, hC, hF, hs1, hs2⟩ := hR
  by_cases han : t1.isAnimating = true
  · have han2 : t2.isAnimating = true := by rw [← hA]; exact han
    rw [animate_running (u + d1) t1 (a + d1) han hp1 hs1 h1,
        animate_running (u + d2) t2 (a + d2) han2 hp2 hs2 h2]
    have he : (u + d1 - (a + d1)) / 1000 = (u + d2 - (a + d2)) / 1000 := by
      ring_nf
    rw [he, hF]
    by_cases hdone :
        t2.flightTime ≤ min ((u + d2 - (a + d2)) / 1000) t2.flightTime
    · rw [if_pos hdone, if_pos hdone]
      exact ⟨rfl, hp1, hp2, rfl, rfl, hs1, hs2⟩
    · rw [if_neg hdone, if_neg hdone]
      exact ⟨hA, hp1, hp2, rfl, rfl, hs1, hs2⟩
  · have han' : t1.isAnimating = false := by
      revert han; cases t1.isAnimating <;> simp
    have han2 : t2.isAnimating = false := by rw [← hA]; exact han'
    rw [animate_completed (u + d1) t1 han', animate_completed (u + d2) t2 han2]
    exact ⟨hA, hp1, hp2, hC, hF, hs1, hs2⟩

lemma shifted_trace (a d1 d2 P : ℚ) (h1 : a + d1 ≠ 0) (h2 : a + d2 ≠ 0) :
    ∀ (qs : List ℚ) (t1 t2 : AnimState), shiftRel a d1 d2 t1 t2 →
      ctTrace t1 (qs.map fun q => Ev.tick (P + d1 + q)) =
      ctTrace t2 (qs.map fun q => Ev.tick (P + d2 + q)) := by
  intro qs
  induction qs with
  | nil => intro t1 t2 _; rfl
  | cons q qs ih =>
    intro t1 t2 hR
    have hstep := shifted_step a d1 d2 (P + q) t1 t2 h1 h2 hR
    have e1 : P + d1 + q = P + q + d1 := by ring
    have e2 : P + d2 + q = P + q + d2 := by ring
    simp only [List.map_cons, ctTrace, step]
    rw [e1, e2]
    congr 1
    · exact hstep.2.2.2.1
    · exact ih _ _ hstep

lemma ctTrace_append (s : AnimState) (es1 es2 : List Ev) :
    ctTrace s (es1 ++ es2) = ctTrace s es1 ++ ctTrace (runEvents s es1) es2 := by
  induction es1 generalizing s with
  | nil => simp [ctTrace, runEvents]
  | cons e es ih =>
    simp only [List.cons_append, ctTrace, runEvents, List.foldl]
    exact congrArg (List.cons _) (ih (step s e))

lemma resume_paused (now : ℚ) (s : AnimState) (hp : s.isPaused = true)
    (a : ℚ) (hst : s.startTimestamp = some a) :
    resume now s =
      { s with startTimestamp := some (a + (now - s.pauseTimestamp)),
               isPaused := false } := by
  simp [resume, hp, hst]

/-! ### Theorems for claims C1, C2, C3 -/

/-- Claim C1 (amended): frame-rate independence of the animation clock.
For a run started by `startSimulation` with any nonnegative flight time
and any strictly increasing tick timestamps whose FIRST timestamp is
nonzero (the amendment: `animate` treats a zero `startTimestamp` as
unset and would re-anchor), the `currentTime` after the final tick is
`min ((finalTimestamp - firstTimestamp)/1000, flightTime)` — it depends
only on the first (anchor) and last timestamps, not on how many
intermediate ticks occurred. -/
theorem animation_clock_frame_rate_independent
    (ft h : ℚ) (rest : List ℚ) (s : AnimState)
    (hft : 0 ≤ ft) (hh : h ≠ 0) (hchain : List.Chain (· < ·) h rest) :
    (runEvents (startSimulation ft s) ((h :: rest).map Ev.tick)).currentTime =
      min ((List.getLast (h :: rest) (List.cons_ne_nil h rest) - h) / 1000) ft := by
  have e0 : animate h (startSimulation ft s) =
      if ft ≤ min ((h - h) / 1000) ft then
        { startSimulation ft s with
          startTimestamp := some h,
          currentTime := min ((h - h) / 1000) ft,
          isAnimating := false }
      else
        { startSimulation ft s with
          startTimestamp := some h,
          currentTime := min ((h - h) / 1000) ft } := by
    simp [animate, startSimulation, jsFalsy]
  have h0 : tickInv h ft h (animate h (startSimulation ft s)) := by
    rw [e0]
    by_cases hc : ft ≤ min ((h - h) / 1000) ft
    · rw [if_pos hc]
      have hz : (h - h) / 1000 = 0 := by norm_num
      have hft0 : ft = 0 := by
        rw [hz] at hc
        simp only [min_def] at hc
        split at hc <;> linarith
      refine ⟨rfl, rfl, rfl, rfl, ?_⟩
      simp only [Bool.false_eq_true, false_iff, not_lt]
      rw [hz, hft0]
    · rw [if_neg hc]
      push_neg at hc
      have hlt : (h - h) / 1000 < ft := by
        rcases min_lt_iff.mp hc with h' | h'
        · exact h'
        · linarith
      exact ⟨rfl, rfl, rfl, rfl, by simpa only [startSimulation, true_iff] using hlt⟩
  have h2 := runTicks_inv h ft hh rest h (animate h (startSimulation ft s)) hchain h0
  have h3 : runEvents (startSimulation ft s) ((h :: rest).map Ev.tick) =
      runEvents (animate h (startSimulation ft s)) (rest.map Ev.tick) := by
    simp [runEvents, List.foldl, step]
  rw [h3]
  exact h2.2.2.2.1

/-- Witness for `animation_clock_frame_rate_independent`: with flight
time 2 s and ticks at 1000, 1500 and 4000 ms, the final `currentTime` is
`min ((4000-1000)/1000, 2) = 2`. -/
theorem animation_clock_frame_rate_independent_witness :
    (0 ≤ (2:ℚ)) ∧ ((1000:ℚ) ≠ 0) ∧
    List.Chain (· < ·) (1000:ℚ) [1500, 4000] ∧
    (runEvents (startSimulation 2 initState)
      ([1000, 1500, 4000].map Ev.tick)).currentTime = 2 := by
  have hchain : List.Chain (· < ·) (1000:ℚ) [1500, 4000] := by
    norm_num [List.chain_cons]
  refine ⟨by norm_num, by norm_num, hchain, ?_⟩
  rw [animation_clock_frame_rate_independent 2 1000 [1500, 4000] initState
    (by norm_num) (by norm_num) hchain]
  have hlast : List.getLast ((1000:ℚ) :: [1500, 4000])
      (List.cons_ne_nil 1000 [1500, 4000]) = 4000 := rfl
  rw [hlast]
  norm_num [min_def]

/-- Counterexample to claim C1 as stated: the tick sequence `[0, 5000]`
is strictly increasing and flight time 10 is valid, yet the final
`currentTime` is `0`, not the claimed `min ((5000 - 0)/1000, 10) = 5` —
`animate` treats the anchor value `0` as unset and re-anchors on the
second tick. -/
theorem animation_clock_zero_timestamp_cex :
    List.Chain (· < ·) (0:ℚ) [5000] ∧ (0 ≤ (10:ℚ)) ∧
    (runEvents (startSimulation 10 initState)
      ([0, 5000].map Ev.tick)).currentTime = 0 ∧
    (0:ℚ) ≠ min ((5000 - 0) / 1000) 10 := by
  refine ⟨by norm_num [List.chain_cons], by norm_num, ?_, by norm_num [min_def]⟩
  norm_num [runEvents, step, animate, startSimulation, initState, jsFalsy,
    List.foldl, min_def, Option.getD]

/-- Claim C2 (amended): noninterference of the pause duration. Two runs
with the same flight time, the same pre-pause ticks (first tick at a
POSITIVE timestamp `h` — the amendment: with no processed pre-pause tick
the `null` anchor is coerced to the pause duration itself and a zero
anchor re-anchors, which can distinguish a zero-length pause from a
positive one), the same pause instant, the same ticks while paused and
the same post-resume tick offsets, but pauses of different nonnegative
durations `d1` and `d2`, produce identical `currentTime` traces and
identical position sequences; moreover ticks while paused leave the
state entirely unchanged, because `resume` shifts the anchor forward by
exactly the pause duration. -/
theorem pause_duration_noninterference
    (ft h P d1 d2 : ℚ) (pre pausedTicks qs : List ℚ)
    (s : AnimState) (hh : 0 < h) (hd1 : 0 ≤ d1) (hd2 : 0 ≤ d2) :
    ctTrace (startSimulation ft s) (pausedRunEvents h P d1 pre pausedTicks qs) =
      ctTrace (startSimulation ft s) (pausedRunEvents h P d2 pre pausedTicks qs) ∧
    (∀ ts : List ℚ,
      runEvents (runEvents (startSimulation ft s)
          (Ev.tick h :: pre.map Ev.tick ++ [Ev.pauseAt P])) (ts.map Ev.tick) =
        runEvents (startSimulation ft s)
          (Ev.tick h :: pre.map Ev.tick ++ [Ev.pauseAt P])) ∧
    (∀ v0 θ h0 g : ℝ,
      (ctTrace (startSimulation ft s)
          (pausedRunEvents h P d1 pre pausedTicks qs)).map
          (fun c : ℚ => calculatePositionAtTime (c : ℝ) v0 θ h0 g) =
        (ctTrace (startSimulation ft s)
          (pausedRunEvents h P d2 pre pausedTicks qs)).map
          (fun c : ℚ => calculatePositionAtTime (c : ℝ) v0 θ h0 g)) := by
  have hh0 : h ≠ 0 := ne_of_gt hh
  have ha1 := first_tick_anchor ft h s
  have hanchor := anchor_stable h hh0 pre
    (animate h (startSimulation ft s)) ha1.1 ha1.2
  set s1 := runEvents (animate h (startSimulation ft s)) (pre.map Ev.tick)
    with hs1def
  set s2 := pause P s1 with hs2def
  have hst2 : s2.startTimestamp = some h := hanchor.1
  have hp2 : s2.isPaused = true := rfl
  have hpt2 : s2.pauseTimestamp = P := rfl
  have hres : ∀ d, resume (P + d) s2 =
      { s2 with startTimestamp := some (h + d), isPaused := false } := by
    intro d
    rw [resume_paused (P + d) s2 hp2 h hst2, hpt2]
    have : h + (P + d - P) = h + d := by ring
    rw [this]
  have hnz1 : h + d1 ≠ 0 := by positivity
  have hnz2 : h + d2 ≠ 0 := by positivity
  have hRel : shiftRel h d1 d2 (resume (P + d1) s2) (resume (P + d2) s2) := by
    rw [hres d1, hres d2]
    exact ⟨rfl, rfl, rfl, rfl, rfl, rfl, rfl⟩
  have htrace : ctTrace (startSimulation ft s)
      (pausedRunEvents h P d1 pre pausedTicks qs) =
      ctTrace (startSimulation ft s)
      (pausedRunEvents h P d2 pre pausedTicks qs) := by
    have hdecomp : ∀ d, pausedRunEvents h P d pre pausedTicks qs =
        (Ev.tick h :: pre.map Ev.tick) ++
          (Ev.pauseAt P :: (pausedTicks.map Ev.tick ++
            (Ev.resumeAt (P + d) :: qs.map (fun q => Ev.tick (P + d + q))))) := by
      intro d
      simp [pausedRunEvents]
    rw [hdecomp d1, hdecomp d2, ctTrace_append, ctTrace_append]
    congr 1
    simp only [ctTrace, step]
    congr 1
    rw [ctTrace_append, ctTrace_append]
    congr 1
    rw [paused_run_id pausedTicks _ rfl]
    simp only [ctTrace, step]
    rw [List.cons_eq_cons]
    refine ⟨?_, ?_⟩
    · rw [resume_currentTime, resume_currentTime]
    · exact shifted_trace h d1 d2 P hnz1 hnz2 qs _ _ hRel
  refine ⟨htrace, ?_,
    fun v0 θ h0 g => congrArg
      (List.map fun c : ℚ => calculatePositionAtTime (c : ℝ) v0 θ h0 g) htrace⟩
  intro ts
  have hsplit : runEvents (startSimulation ft s)
      (Ev.tick h :: pre.map Ev.tick ++ [Ev.pauseAt P]) = s2 := by
    rw [hs2def, hs1def]
    simp [runEvents, List.foldl_append, step]
  rw [hsplit]
  exact paused_run_id ts s2 rfl

/-- Witness for `pause_duration_noninterference`: first tick at 1000 ms,
pause at 2000 ms, pauses of 0 ms and 500 ms, post-resume tick offsets 0
and 100 ms; the observed `currentTime` traces coincide. -/
theorem pause_duration_noninterference_witness :
    (0 < (1000:ℚ)) ∧ (0 ≤ (0:ℚ)) ∧ (0 ≤ (500:ℚ)) ∧
    ctTrace (startSimulation 10 initState)
        (pausedRunEvents 1000 2000 0 [] [] [0, 100]) =
      ctTrace (startSimulation 10 initState)
        (pausedRunEvents 1000 2000 500 [] [] [0, 100]) :=
  ⟨by norm_num, by norm_num, by norm_num,
    (pause_duration_noninterference 10 1000 2000 0 500 [] [] [0, 100] initState
      (by norm_num) (by norm_num) (by norm_num)).1⟩

/-- Counterexample to claim C2 as stated: with NO pre-pause tick
(identical — empty — pre-pause tick sequences) and identical post-pause
offsets, a pause of length 0 and a pause of length 500 ms produce
different `currentTime` sequences (`[0,0,0]` versus `[0,0,2]`): `resume`
coerces the still-`null` anchor to the pause duration, and a zero anchor
is treated as unset by the next tick. -/
theorem pause_duration_noninterference_cex :
    ctTrace (startSimulation 10 initState)
      [Ev.pauseAt 2000, Ev.resumeAt 2000, Ev.tick 2000] = [0, 0, 0] ∧
    ctTrace (startSimulation 10 initState)
      [Ev.pauseAt 2000, Ev.resumeAt 2500, Ev.tick 2500] = [0, 0, 2] ∧
    ([0, 0, 0] : List ℚ) ≠ [0, 0, 2] := by
  refine ⟨?_, ?_, by simp⟩ <;>
    norm_num [ctTrace, step, animate, pause, resume, startSimulation, initState,
      jsFalsy, min_def, Option.getD]

/-- Claim C3 (code bug): `resume` while not paused is indeed a no-op
(shown at a concrete running state), but `pause` while already paused is
NOT a no-op — the second call overwrites `pauseTimestamp`, so after
`resume` the anchor is shifted by only the second pause's duration and
the subsequently observed `currentTime` jumps. Concretely: tick at
1000 ms, pause at 2000 ms, a second pause at 3000 ms, resume at 4000 ms,
tick at 4000 ms yields `currentTime = 2`, whereas the identical run
without the second pause call yields `currentTime = 1`. -/
theorem pause_double_invocation_bug :
    (runEvents (startSimulation 5 initState)
      [Ev.tick 1000, Ev.pauseAt 2000, Ev.pauseAt 3000, Ev.resumeAt 4000,
       Ev.tick 4000]).currentTime = 2 ∧
    (runEvents (startSimulation 5 initState)
      [Ev.tick 1000, Ev.pauseAt 2000, Ev.resumeAt 4000,
       Ev.tick 4000]).currentTime = 1 ∧
    ((2:ℚ) ≠ 1) ∧
    (pause 3000 (pause 2000 (startSimulation 5 initState))).pauseTimestamp ≠
      (pause 2000 (startSimulation 5 initState)).pauseTimestamp ∧
    resume 9999 (startSimulation 5 initState) = startSimulation 5 initState := by
  refine ⟨?_, ?_, by norm_num, by norm_num [pause], ?_⟩
  · norm_num [runEvents, step, animate, pause, resume, startSimulation,
      initState, jsFalsy, List.foldl, min_def, Option.getD]
  · norm_num [runEvents, step, animate, pause, resume, startSimulation,
      initState, jsFalsy, List.foldl, min_def, Option.getD]
  · simp [resume, startSimulation]

/-! ### Helper lemmas about the kinematics -/

lemma calculateFlightTime_nonneg (v0 θ h0 g : ℝ) :
    0 ≤ calculateFlightTime v0 θ h0 g := by
  simp only [calculateFlightTime]
  split_ifs with h
  · exact le_refl 0
  · exact le_max_left 0 _

lemma deg0 : degreesToRadians 0 = 0 := by
  unfold degreesToRadians; ring

lemma deg60 : degreesToRadians 60 = Real.pi / 3 := by
  unfold degreesToRadians; ring

lemma deg90 : degreesToRadians 90 = Real.pi / 2 := by
  unfold degreesToRadians; ring

lemma sqrt_hundred : Real.sqrt 100 = 10 := by
  rw [show (100:ℝ) = 10 ^ 2 by norm_num]
  exact Real.sqrt_sq (by norm_num)

lemma ft_10_90_0_2 : calculateFlightTime 10 90 0 2 = 10 := by
  simp only [calculateFlightTime, deg90, Real.sin_pi_div_two]
  norm_num
  rw [sqrt_hundred]
  norm_num [max_def]

/-! ### Theorems for claims C4, C8, C9, C10 -/

/-- Claim C4 (amended): for valid parameters and `n ≥ 1` the sampler
returns exactly `n+1` points with nondecreasing `t`, first `t = 0`, last
`t = flightTime`, and every `y` clamped to `≥ 0`; the `t` values are
STRICTLY increasing provided `flightTime > 0` (the amendment: for valid
parameters with flight time `0`, e.g. `v0 = 0, h0 = 0`, all sampled
times are `0`). -/
theorem trajectory_sampler_points (v0 θ h0 g : ℝ) (n : ℕ)
    (hv : 0 ≤ v0) (hθ0 : 0 ≤ θ) (hθ1 : θ ≤ 90) (hh : 0 ≤ h0) (hg : 0 < g)
    (hn : 1 ≤ n) :
    (generateTrajectoryPoints v0 θ h0 g n).length = n + 1 ∧
    ((generateTrajectoryPoints v0 θ h0 g n).map TrajPoint.t).Pairwise (· ≤ ·) ∧
    (0 < calculateFlightTime v0 θ h0 g →
      ((generateTrajectoryPoints v0 θ h0 g n).map TrajPoint.t).Pairwise (· < ·)) ∧
    ((generateTrajectoryPoints v0 θ h0 g n).map TrajPoint.t)[0]? = some 0 ∧
    ((generateTrajectoryPoints v0 θ h0 g n).map TrajPoint.t)[n]? =
      some (calculateFlightTime v0 θ h0 g) ∧
    (∀ p ∈ generateTrajectoryPoints v0 θ h0 g n, 0 ≤ p.y) := by
  have hT0 : 0 ≤ calculateFlightTime v0 θ h0 g := calculateFlightTime_nonneg v0 θ h0 g
  have hn0 : 0 < n := hn
  have hnR : (0:ℝ) < n := by exact_mod_cast hn0
  have hmap : (generateTrajectoryPoints v0 θ h0 g n).map TrajPoint.t =
      (List.range (n+1)).map
        (fun i : ℕ => ((i:ℝ) / (n:ℝ)) * calculateFlightTime v0 θ h0 g) := by
    simp [generateTrajectoryPoints, List.map_map]
  refine ⟨?_, ?_, ?_, ?_, ?_, ?_⟩
  · simp [generateTrajectoryPoints]
  · rw [hmap]
    refine List.Pairwise.map _ ?_ (List.pairwise_lt_range (n+1))
    intro a b hab
    have hd : (a:ℝ) / n ≤ (b:ℝ) / n :=
      (div_le_div_iff_of_pos_right hnR).mpr (by exact_mod_cast le_of_lt hab)
    exact mul_le_mul_of_nonneg_right hd hT0
  · intro hTpos
    rw [hmap]
    refine List.Pairwise.map _ ?_ (List.pairwise_lt_range (n+1))
    intro a b hab
    have hd : (a:ℝ) / n < (b:ℝ) / n :=
      (div_lt_div_iff_of_pos_right hnR).mpr (by exact_mod_cast hab)
    exact mul_lt_mul_of_pos_right hd hTpos
  · rw [hmap, List.getElem?_map]
    rw [List.getElem?_range (by omega : 0 < n + 1)]
    simp
  · rw [hmap, List.getElem?_map]
    rw [List.getElem?_range (by omega : n < n + 1)]
    simp [div_self (ne_of_gt hnR)]
  · intro p hp
    simp only [generateTrajectoryPoints, List.mem_map] at hp
    obtain ⟨i, _, rfl⟩ := hp
    exact le_max_left 0 _

/-- Witness for `trajectory_sampler_points` at `v0 = 10, θ = 90, h0 = 0,
g = 2, n = 1`: flight time is `10 > 0`, two points, strictly increasing
`t`, last sampled time equal to the flight time. -/
theorem trajectory_sampler_points_witness :
    ((0:ℝ) ≤ 10 ∧ (0:ℝ) ≤ 90 ∧ (90:ℝ) ≤ 90 ∧ (0:ℝ) ≤ 0 ∧ (0:ℝ) < 2 ∧ 1 ≤ 1) ∧
    (generateTrajectoryPoints 10 90 0 2 1).length = 1 + 1 ∧
    ((generateTrajectoryPoints 10 90 0 2 1).map TrajPoint.t).Pairwise (· < ·) ∧
    ((generateTrajectoryPoints 10 90 0 2 1).map TrajPoint.t)[1]? =
      some (calculateFlightTime 10 90 0 2) := by
  have h := trajectory_sampler_points 10 90 0 2 1 (by norm_num) (by norm_num)
    (by norm_num) (by norm_num) (by norm_num) (le_refl 1)
  exact ⟨⟨by norm_num, by norm_num, by norm_num, by norm_num, by norm_num,
    le_refl 1⟩, h.1, h.2.2.1 (by rw [ft_10_90_0_2]; norm_num), h.2.2.2.2.1⟩

/-- Counterexample to claim C4 as stated: the parameters
`v0 = 0, θ = 45, h0 = 0, g = 9.81` are valid and `n = 1 ≥ 1`, but the
flight time is `0`, so both sampled `t` values are `0` — NOT strictly
increasing. -/
theorem trajectory_sampler_strictness_cex :
    ((0:ℝ) ≤ 0 ∧ (0:ℝ) ≤ 45 ∧ (45:ℝ) ≤ 90 ∧ (0:ℝ) ≤ 0 ∧
      (0:ℝ) < 981/100 ∧ 1 ≤ 1) ∧
    ¬ ((generateTrajectoryPoints 0 45 0 (981/100) 1).map TrajPoint.t).Pairwise
        (· < ·) := by
  have hft : calculateFlightTime 0 45 0 (981/100) = 0 := by
    simp only [calculateFlightTime]
    norm_num
  have hmap : (generateTrajectoryPoints 0 45 0 (981/100) 1).map TrajPoint.t =
      [0, 0] := by
    simp [generateTrajectoryPoints, hft, List.range_succ]
  refine ⟨⟨by norm_num, by norm_num, by norm_num, by norm_num,
    by norm_num, le_refl 1⟩, ?_⟩
  rw [hmap]
  simp [List.pairwise_cons]

/-- Claim C8 (confirmed): `calculateFinalVelocity` is the horizontal
velocity component `v0·cos(θ·π/180)` — it coincides with the `vx` of
`calculateVelocityAtTime` at every time, in particular at landing. It is
deliberately not the impact speed: at `v0 = 10, θ = 90, h0 = 0, g = 2`
the impact speed at landing is `10` (equal to `v0` by energy
conservation) while the displayed final velocity is `0`; and it varies
with the launch angle (`5` at `θ = 60` versus `10` at `θ = 0`). -/
theorem finalVelocity_horizontal_component :
    (∀ v0 θ t g : ℝ,
      calculateFinalVelocity v0 θ = (calculateVelocityAtTime t v0 θ g).vx) ∧
    (∀ v0 θ : ℝ,
      calculateFinalVelocity v0 θ = v0 * Real.cos (θ * (Real.pi / 180))) ∧
    calculateFinalVelocity 10 60 ≠ calculateFinalVelocity 10 0 ∧
    calculateFinalVelocity 10 90 = 0 ∧
    (calculateVelocityAtTime (calculateFlightTime 10 90 0 2) 10 90 2).magnitude = 10 ∧
    calculateFinalVelocity 10 90 ≠
      (calculateVelocityAtTime (calculateFlightTime 10 90 0 2) 10 90 2).magnitude := by
  have h60 : calculateFinalVelocity 10 60 = 5 := by
    simp [calculateFinalVelocity, deg60, Real.cos_pi_div_three]
    norm_num
  have h0 : calculateFinalVelocity 10 0 = 10 := by
    simp [calculateFinalVelocity, deg0, Real.cos_zero]
  have h90 : calculateFinalVelocity 10 90 = 0 := by
    simp [calculateFinalVelocity, deg90, Real.cos_pi_div_two]
  have hmag : (calculateVelocityAtTime
      (calculateFlightTime 10 90 0 2) 10 90 2).magnitude = 10 := by
    rw [ft_10_90_0_2]
    simp only [calculateVelocityAtTime, deg90, Real.cos_pi_div_two,
      Real.sin_pi_div_two]
    norm_num
    rw [sqrt_hundred]
  exact ⟨fun v0 θ t g => rfl, fun v0 θ => rfl,
    by rw [h60, h0]; norm_num, h90, hmag, by rw [h90, hmag]; norm_num⟩

/-- Claim C9 (amended): the kinematics functions are total and never
raise. For in-domain parameters `calculateFlightTime` returns a
nonnegative time at which the position is exactly at ground level
(`y = 0`). Out-of-domain inputs are not detected by any assertion or
typed error (the source has no throw path); see the counterexample for
the silent value they produce. -/
theorem kinematics_total_amended (v0 θ h0 g : ℝ) (hv : 0 ≤ v0) (hθ0 : 0 ≤ θ)
    (hθ1 : θ ≤ 90) (hh : 0 ≤ h0) (hg : 0 < g) :
    0 ≤ calculateFlightTime v0 θ h0 g ∧
    (calculatePositionAtTime (calculateFlightTime v0 θ h0 g) v0 θ h0 g).y = 0 := by
  have hrad0 : 0 ≤ degreesToRadians θ := by
    unfold degreesToRadians
    apply mul_nonneg hθ0
    positivity
  have hradpi : degreesToRadians θ ≤ Real.pi := by
    unfold degreesToRadians
    have h1 : θ * (Real.pi / 180) ≤ 90 * (Real.pi / 180) := by
      apply mul_le_mul_of_nonneg_right hθ1
      positivity
    have h2 : (90:ℝ) * (Real.pi / 180) = Real.pi / 2 := by ring
    have h3 : Real.pi / 2 ≤ Real.pi := by linarith [Real.pi_pos]
    linarith
  have hsin : 0 ≤ Real.sin (degreesToRadians θ) :=
    Real.sin_nonneg_of_nonneg_of_le_pi hrad0 hradpi
  have hb : 0 ≤ v0 * Real.sin (degreesToRadians θ) := mul_nonneg hv hsin
  set b := v0 * Real.sin (degreesToRadians θ) with hbdef
  have hdiscnn : 0 ≤ b * b - 4 * (-(1/2) * g) * h0 := by nlinarith
  have hTdef : calculateFlightTime v0 θ h0 g =
      max 0 ((-b - Real.sqrt (b * b - 4 * (-(1/2) * g) * h0)) /
        (2 * (-(1/2) * g))) := by
    simp only [calculateFlightTime]
    rw [← hbdef]
    rw [if_neg (not_lt.mpr hdiscnn)]
  have hs0 : 0 ≤ Real.sqrt (b * b - 4 * (-(1/2) * g) * h0) := Real.sqrt_nonneg _
  set s := Real.sqrt (b * b - 4 * (-(1/2) * g) * h0) with hsdef
  have hssq : s * s = b * b - 4 * (-(1/2) * g) * h0 := Real.mul_self_sqrt hdiscnn
  have hden : 2 * (-(1/2) * g) < 0 := by linarith
  have hnum : -b - s ≤ 0 := by linarith
  have hT0 : 0 ≤ (-b - s) / (2 * (-(1/2) * g)) :=
    div_nonneg_iff.mpr (Or.inr ⟨hnum, le_of_lt hden⟩)
  have hTmax : calculateFlightTime v0 θ h0 g =
      (-b - s) / (2 * (-(1/2) * g)) := by
    rw [hTdef, max_eq_right hT0]
  constructor
  · rw [hTmax]; exact hT0
  · rw [hTmax]
    simp only [calculatePositionAtTime]
    rw [← hbdef]
    have hgne : g ≠ 0 := ne_of_gt hg
    field_simp
    linear_combination (8 * g ^ 2) * hssq

/-- Witness for `kinematics_total_amended` at `v0 = 10, θ = 90, h0 = 0,
g = 2`. -/
theorem kinematics_total_amended_witness :
    ((0:ℝ) ≤ 10 ∧ (0:ℝ) ≤ 90 ∧ (90:ℝ) ≤ 90 ∧ (0:ℝ) ≤ 0 ∧ (0:ℝ) < 2) ∧
    0 ≤ calculateFlightTime 10 90 0 2 ∧
    (calculatePositionAtTime (calculateFlightTime 10 90 0 2) 10 90 0 2).y = 0 := by
  have h := kinematics_total_amended 10 90 0 2 (by norm_num) (by norm_num)
    (by norm_num) (by norm_num) (by norm_num)
  exact ⟨⟨by norm_num, by norm_num, by norm_num, by norm_num, by norm_num⟩,
    h.1, h.2⟩

/-- Counterexample to claim C9 as stated: at the out-of-domain input
`gravity = -2` (with `v0 = 0, θ = 0, h0 = 1`) `calculateFlightTime`
raises nothing and silently returns `0` — a wrong number, since the
position at that returned time still has `y = 1 ≠ 0` (with upward
"gravity" the projectile never lands). -/
theorem kinematics_no_failfast_counterexample :
    calculateFlightTime 0 0 1 (-2) = 0 ∧
    (calculatePositionAtTime (calculateFlightTime 0 0 1 (-2)) 0 0 1 (-2)).y = 1 ∧
    (1:ℝ) ≠ 0 := by
  have hft : calculateFlightTime 0 0 1 (-2) = 0 := by
    simp only [calculateFlightTime, deg0, Real.sin_zero]
    norm_num
  refine ⟨hft, ?_, by norm_num⟩
  rw [hft]
  simp [calculatePositionAtTime]

/-- Claim C10 (confirmed): the object-spread merge performed by both
`CanvasRenderer.setParams` and `UIController.setParams` updates exactly
the fields present in the patch and leaves every absent field at its
stored value. -/
theorem setParams_partial_update (stored : Params) (patch : ParamsPatch) :
    (patch.initialVelocity = none →
      (rendererSetParams stored patch).initialVelocity = stored.initialVelocity ∧
      (uiSetParams stored patch).initialVelocity = stored.initialVelocity) ∧
    (∀ v, patch.initialVelocity = some v →
      (rendererSetParams stored patch).initialVelocity = v ∧
      (uiSetParams stored patch).initialVelocity = v) ∧
    (patch.launchAngle = none →
      (rendererSetParams stored patch).launchAngle = stored.launchAngle ∧
      (uiSetParams stored patch).launchAngle = stored.launchAngle) ∧
    (∀ v, patch.launchAngle = some v →
      (rendererSetParams stored patch).launchAngle = v ∧
      (uiSetParams stored patch).launchAngle = v) ∧
    (patch.initialHeight = none →
      (rendererSetParams stored patch).initialHeight = stored.initialHeight ∧
      (uiSetParams stored patch).initialHeight = stored.initialHeight) ∧
    (∀ v, patch.initialHeight = some v →
      (rendererSetParams stored patch).initialHeight = v ∧
      (uiSetParams stored patch).initialHeight = v) ∧
    (patch.gravity = none →
      (rendererSetParams stored patch).gravity = stored.gravity ∧
      (uiSetParams stored patch).gravity = stored.gravity) ∧
    (∀ v, patch.gravity = some v →
      (rendererSetParams stored patch).gravity = v ∧
      (uiSetParams stored patch).gravity = v) := by
  refine ⟨fun h => ?_, fun v h => ?_, fun h => ?_, fun v h => ?_,
    fun h => ?_, fun v h => ?_, fun h => ?_, fun v h => ?_⟩ <;>
    simp [rendererSetParams, uiSetParams, h]

/-- Witness for `setParams_partial_update` at the constructor defaults
`⟨25, 45, 0, 9.81⟩` patched with only `initialVelocity = 30`: the
velocity takes the new value and the other three fields are unchanged. -/
theorem setParams_partial_update_witness :
    ((⟨some 30, none, none, none⟩ : ParamsPatch).initialVelocity = some 30) ∧
    (rendererSetParams ⟨25, 45, 0, 981/100⟩
      ⟨some 30, none, none, none⟩).initialVelocity = 30 ∧
    ((⟨some 30, none, none, none⟩ : ParamsPatch).launchAngle = none) ∧
    (rendererSetParams ⟨25, 45, 0, 981/100⟩
      ⟨some 30, none, none, none⟩).launchAngle = 45 ∧
    (uiSetParams ⟨25, 45, 0, 981/100⟩
      ⟨some 30, none, none, none⟩).gravity = 981/100 := by
  refine ⟨rfl, ?_, rfl, ?_, ?_⟩
  · exact ((setParams_partial_update ⟨25, 45, 0, 981/100⟩
      ⟨some 30, none, none, none⟩).2.1 30 rfl).1
  · exact ((setParams_partial_update ⟨25, 45, 0, 981/100⟩
      ⟨some 30, none, none, none⟩).2.2.1 rfl).1
  · exact ((setParams_partial_update ⟨25, 45, 0, 981/100⟩
      ⟨some 30, none, none, none⟩).2.2.2.2.2.2.1 rfl).2
